import Mathlib

/-!
# The snowplow-mini control plane: request handlers of `main.go`

A shallow embedding of the eight HTTP handlers of
`provisioning/resources/control-plane/main.go`.

A handler runs against the file system and yields a `World`: the file system
it leaves behind and the trace of everything it called on the way, in order,
with each call's result (validators, file operations, the resolver and proxy
editors, the restart dispatcher, and the writes to the `http.ResponseWriter`).

The functions that `main.go` calls but does not define (`isJSON`,
`isValidUUID`, `isURLReachable`, `checkHostDomainName`, the editors,
`restartService`, `restartSPServices`), the loaded configuration, and the
failures the operating system may inject into file operations are the
fields of `Env`; the general theorems quantify over all of them.

A Go string is a byte sequence; `String` stands for it here, one character
per byte.
-/

namespace ControlPlane

/-! ## Files -/

/-- The file system as the handlers see it: the content stored under each
path; the first entry for a path is the current one. -/
abbrev FS := List (String × String)

/-- Content of the file at `path`, `none` when there is no such file. -/
def FS.read (fs : FS) (path : String) : Option String :=
  match fs with
  | [] => none
  | (p, c) :: rest => if p = path then some c else FS.read rest path

/-- The file system without the file at `path`. -/
def FS.remove (fs : FS) (path : String) : FS :=
  match fs with
  | [] => []
  | (p, c) :: rest => if p = path then FS.remove rest path else (p, c) :: FS.remove rest path

/-- Store `content` under `path`, replacing what was there. -/
def FS.write (fs : FS) (path content : String) : FS :=
  (path, content) :: fs.remove path

/-! ## Configuration and the records handed to the editors -/

/-- Section `config.Dirs`, as far as `main.go` reads it. -/
structure DirsConfig where
  Enrichments : String
  Config : String
deriving DecidableEq, Repr

/-- Section `config.ConfigNames`, as far as `main.go` reads it. -/
structure ConfigNamesConfig where
  IgluServer : String
  IgluResolver : String
  Caddy : String
deriving DecidableEq, Repr

/-- Datastore connection: `config.Psql` and the `PsqlInfos` literal built
from it. -/
structure PsqlInfos where
  User : String
  Password : String
  Database : String
  Addr : String
deriving DecidableEq, Repr

/-- The global `config`, as far as `main.go` reads it. -/
structure ControlPlaneConfig where
  Dirs : DirsConfig
  ConfigNames : ConfigNamesConfig
  Psql : PsqlInfos
  VersionFilePath : String
deriving DecidableEq, Repr

/-- The `IgluInfo` literal of `addExternalIgluServer`. -/
structure IgluInfo where
  VendorPrefix : String
  Uri : String
  Apikey : String
  Name : String
  Priority : Int
deriving DecidableEq, Repr

/-- The `ExternalIgluServer` literal of `addExternalIgluServer`. -/
structure ExternalIgluServer where
  ConfigPath : String
  IgluInfo : IgluInfo
deriving DecidableEq, Repr

/-- The `LocalIglu` literal of `addLocalIgluApikey`. -/
structure LocalIglu where
  ConfigPath : String
  IgluApikey : String
  Psql : PsqlInfos
deriving DecidableEq, Repr

/-! ## Trace -/

/-- One call made by a handler, with its arguments and its result. For the
calls that return a Go `error`, `err = none` is `nil`. -/
inductive Event where
  | isJSON (text : String) (ok : Bool)
  | isValidUUID (s : String) (ok : Bool)
  | isURLReachable (uri : String) (ok : Bool)
  | checkHostDomainName (name : String) (err : Option String)
  | openFile (path : String) (err : Option String)
  | truncate (path : String) (size : Nat) (err : Option String)
  | seek (path : String) (offset : Nat) (err : Option String)
  | writeString (path : String) (s : String) (written : Nat) (err : Option String)
  | readFile (path : String) (err : Option String)
  | addExternalIgluServer (srv : ExternalIgluServer) (err : Option String)
  | addApiKey (localIglu : LocalIglu) (err : Option String)
  | changeCredentials (path username password : String) (err : Option String)
  | changeDomainName (path domainName : String) (err : Option String)
  | restartService (name : String) (err : Option String)
  | restartSPServices (err : Option String)
  | writeHeader (code : Nat)
  | writeBody (body : String)
deriving DecidableEq, Repr

/-- The file system and what the request has done so far. -/
structure World where
  fs : FS
  trace : List Event
deriving DecidableEq, Repr

/-- The world a request starts in. -/
def World.init (fs : FS) : World := { fs := fs, trace := [] }

/-- Record one more call. -/
def World.log (w : World) (e : Event) : World :=
  { w with trace := w.trace ++ [e] }

/-- Status code of a trace: the first `WriteHeader`. -/
def statusOf : List Event → Option Nat
  | [] => none
  | Event.writeHeader code :: _ => some code
  | _ :: rest => statusOf rest

/-- Status code the request was answered with. -/
def World.status (w : World) : Option Nat := statusOf w.trace

/-- Go `http.Error(resp, msg, code)`: writes the header, then the message and
a newline. -/
def httpError (msg : String) (code : Nat) (w : World) : World :=
  (w.log (Event.writeHeader code)).log (Event.writeBody (msg ++ "\n"))

/-- Go `resp.WriteHeader(http.StatusOK); io.WriteString(resp, body)`. -/
def replyOK (body : String) (w : World) : World :=
  (w.log (Event.writeHeader 200)).log (Event.writeBody body)

/-! ## Surroundings -/

/-- What `main.go` uses and does not define. The editors return their error
and the file system they leave; the restart dispatcher acts on services, not
on configuration files, and returns its error only; the `...Err` fields are
the failures of the operating system, `none` meaning that the operation goes
through. Every result may depend on the file system at the time of the call. -/
structure Env where
  config : ControlPlaneConfig
  isJSON : String → Bool
  isValidUUID : String → Bool
  isURLReachable : String → Bool
  checkHostDomainName : String → Option String
  addExternalIgluServer : ExternalIgluServer → FS → Option String × FS
  addApiKey : LocalIglu → FS → Option String × FS
  changeCredentials : String → String → String → FS → Option String × FS
  changeDomainName : String → String → FS → Option String × FS
  restartService : String → FS → Option String
  restartSPServices : FS → Option String
  /-- Failure of `os.OpenFile(path, O_WRONLY|O_CREATE, 0666)`. -/
  openFileErr : String → FS → Option String
  /-- Failure of `f.Truncate`. -/
  truncateErr : String → FS → Option String
  /-- Failure of `f.Seek`. -/
  seekErr : String → FS → Option String
  /-- Failure of a write of `s` to `path`: the number of bytes that reached
  the file before the error, and the error. -/
  writeErr : String → String → FS → Option (Nat × String)
  /-- Failure of `ioutil.ReadFile` on an existing file. -/
  readFileErr : String → FS → Option String

/-! ## Requests -/

/-- The parts of `*http.Request` the handlers read. `multipartErr` is the
result of `ParseMultipartForm`; `files` maps a form field to the uploaded
file name and the content `ioutil.ReadAll` returns for it (the handlers drop
its error); `form` is `req.Form` after `ParseForm` (the handlers drop its
error too), whose value slices are never empty (first value, other values). -/
structure Request where
  method : String
  multipartErr : Option String
  files : List (String × String × String)
  form : List (String × String × List String)
deriving DecidableEq, Repr

/-- Lookup in an association list keyed by strings. -/
def lookupKey {α : Type} (key : String) : List (String × α) → Option α
  | [] => none
  | (k, v) :: rest => if k = key then some v else lookupKey key rest

/-- Go `req.FormFile(key)`: the first file under `key`, or an error. -/
def Request.formFile (req : Request) (key : String) : Except String (String × String) :=
  match lookupKey key req.files with
  | some f => Except.ok f
  | none => Except.error "http: no such file"

/-! ## Go `strconv.Atoi` -/

/-- Value of a decimal digit. -/
def digitVal (c : Char) : Option Nat :=
  if 48 ≤ c.toNat ∧ c.toNat ≤ 57 then some (c.toNat - 48) else none

/-- Value of a string of decimal digits. -/
def parseDigits : List Char → Nat → Option Nat
  | [], acc => some acc
  | c :: cs, acc =>
    match digitVal c with
    | none => none
    | some d => parseDigits cs (acc * 10 + d)

/-- Go `strconv.Atoi` with a 64-bit `int`: an optional sign, then one or more
decimal digits, the value within range; `none` is the error. -/
def atoi (s : String) : Option Int :=
  match s.data with
  | [] => none
  | '-' :: cs =>
    if cs = [] then none else
    match parseDigits cs 0 with
    | some n => if n ≤ 2 ^ 63 then some (-(n : Int)) else none
    | none => none
  | '+' :: cs =>
    if cs = [] then none else
    match parseDigits cs 0 with
    | some n => if n < 2 ^ 63 then some (n : Int) else none
    | none => none
  | cs =>
    match parseDigits cs 0 with
    | some n => if n < 2 ^ 63 then some (n : Int) else none
    | none => none

/-! ## Go `os.File` -/

/-- An open file: its path and I/O offset. -/
structure File where
  path : String
  offset : Nat
deriving DecidableEq, Repr

/-- Bytes `bs` written over `old` from offset `off` on; a gap is filled with
zero bytes. -/
def writeAt (old : List Char) (off : Nat) (bs : List Char) : List Char :=
  old.take off ++ List.replicate (off - old.length) (Char.ofNat 0) ++ bs
    ++ old.drop (off + bs.length)

/-- Go `os.OpenFile(path, os.O_WRONLY|os.O_CREATE, 0666)`: creates the file,
empty, when it is missing; the offset is 0. -/
def osOpenFile (env : Env) (path : String) (w : World) : Except String File × World :=
  match env.openFileErr path w.fs with
  | some err => (Except.error err, w.log (Event.openFile path (some err)))
  | none =>
    let fs := match w.fs.read path with
      | some _ => w.fs
      | none => w.fs.write path ""
    (Except.ok { path := path, offset := 0 },
      { fs := fs, trace := w.trace ++ [Event.openFile path none] })

/-- Go `f.Truncate(size)`: cuts or zero-extends the file to `size` bytes; the
offset stays. -/
def fileTruncate (env : Env) (f : File) (size : Nat) (w : World) : Option String × World :=
  match env.truncateErr f.path w.fs with
  | some err => (some err, w.log (Event.truncate f.path size (some err)))
  | none =>
    let old := ((w.fs.read f.path).getD "").data
    let new := old.take size ++ List.replicate (size - old.length) (Char.ofNat 0)
    (none, { fs := w.fs.write f.path (String.mk new),
             trace := w.trace ++ [Event.truncate f.path size none] })

/-- Go `f.Seek(offset, 0)`: sets the offset, from the start of the file. -/
def fileSeek (env : Env) (f : File) (offset : Nat) (w : World) :
    Option String × File × World :=
  match env.seekErr f.path w.fs with
  | some err => (some err, f, w.log (Event.seek f.path offset (some err)))
  | none => (none, { f with offset := offset }, w.log (Event.seek f.path offset none))

/-- Go `io.WriteString(f, s)`: writes at the offset and advances it; on a
failure only the bytes written before it are in the file. -/
def fileWriteString (env : Env) (f : File) (s : String) (w : World) :
    Option String × File × World :=
  let old := ((w.fs.read f.path).getD "").data
  match env.writeErr f.path s w.fs with
  | some (n, err) =>
    let bs := s.data.take n
    (some err, { f with offset := f.offset + bs.length },
      { fs := w.fs.write f.path (String.mk (writeAt old f.offset bs)),
        trace := w.trace ++ [Event.writeString f.path s bs.length (some err)] })
  | none =>
    (none, { f with offset := f.offset + s.data.length },
      { fs := w.fs.write f.path (String.mk (writeAt old f.offset s.data)),
        trace := w.trace ++ [Event.writeString f.path s s.data.length none] })

/-- Go `ioutil.ReadFile(path)`. -/
def ioReadFile (env : Env) (path : String) (w : World) : Except String String × World :=
  match w.fs.read path with
  | none =>
    (Except.error ("open " ++ path ++ ": no such file or directory"),
      w.log (Event.readFile path (some ("open " ++ path ++ ": no such file or directory"))))
  | some content =>
    match env.readFileErr path w.fs with
    | some err => (Except.error err, w.log (Event.readFile path (some err)))
    | none => (Except.ok content, w.log (Event.readFile path none))

/-! ## The handlers -/

/-- The tail shared by the six mutating handlers (lines 113–120 of
`uploadEnrichments`, and likewise in the five others):
`err = restartService(service)`, then 500 with the error or 200 with the
success body. -/
def restartAndReply (env : Env) (service okBody : String) (w : World) : World :=
  let err := env.restartService service w.fs
  let w := w.log (Event.restartService service err)
  match err with
  | some e => httpError e 500 w
  | none => replyOK okBody w

/-- The write of the two upload handlers (lines 98–111 of `uploadEnrichments`
and 147–161 of `uploadIgluConfig`): `os.OpenFile`, whose error is answered by
500, then `f.Truncate(0)`, `f.Seek(0, 0)` and `io.WriteString(f, fileContent)`,
whose results are dropped. `Except.error` carries the world of a request
that has returned, `Except.ok` the world in which it goes on. -/
def inPlaceWrite (env : Env) (path fileContent : String) (w : World) : Except World World :=
  match osOpenFile env path w with
  | (Except.error err, w) => Except.error (httpError err 500 w)
  | (Except.ok f, w) =>
    let w := (fileTruncate env f 0 w).2
    let sought := fileSeek env f 0 w
    let w := (fileWriteString env sought.2.1 fileContent sought.2.2).2.2
    Except.ok w

/-- Handler `restartServices` (lines 58–71). -/
def restartServices (env : Env) (req : Request) (fs : FS) : World :=
  let w := World.init fs
  if req.method = "PUT" then
    let err := env.restartSPServices w.fs
    let w := w.log (Event.restartSPServices err)
    match err with
    | some e => httpError e 500 w
    | none => replyOK "OK" w
  else
    httpError "" 404 w

/-- Handler `uploadEnrichments` up to the restart (lines 75–111). -/
def uploadEnrichmentsMutate (env : Env) (req : Request) (w : World) : Except World World :=
  match req.multipartErr with
  | some err => Except.error (httpError err 500 w)
  | none =>
    match req.formFile "enrichmentjson" with
    | Except.error err => Except.error (httpError err 500 w)
    | Except.ok (filename, fileContent) =>
      let valid := env.isJSON fileContent
      let w := w.log (Event.isJSON fileContent valid)
      if !valid then
        Except.error (httpError "JSON is not valid" 400 w)
      else
        inPlaceWrite env (env.config.Dirs.Enrichments ++ "/" ++ filename) fileContent w

/-- Handler `uploadEnrichments` (lines 73–124). -/
def uploadEnrichments (env : Env) (req : Request) (fs : FS) : World :=
  let w := World.init fs
  if req.method = "POST" then
    match uploadEnrichmentsMutate env req w with
    | Except.error w => w
    | Except.ok w => restartAndReply env "streamEnrich" "uploaded successfully" w
  else
    httpError "" 404 w

/-- Handler `uploadIgluConfig` up to the restart (lines 128–161). -/
def uploadIgluConfigMutate (env : Env) (req : Request) (w : World) : Except World World :=
  match req.multipartErr with
  | some err => Except.error (httpError err 500 w)
  | none =>
    match req.formFile "igluserverhocon" with
    | Except.error err => Except.error (httpError err 500 w)
    | Except.ok (_, fileContent) =>
      inPlaceWrite env (env.config.Dirs.Config ++ "/" ++ env.config.ConfigNames.IgluServer)
        fileContent w

/-- Handler `uploadIgluConfig` (lines 126–174). -/
def uploadIgluConfig (env : Env) (req : Request) (fs : FS) : World :=
  let w := World.init fs
  if req.method = "POST" then
    match uploadIgluConfigMutate env req w with
    | Except.error w => w
    | Except.ok w => restartAndReply env "iglu" "uploaded successfully" w
  else
    httpError "" 404 w

/-- Handler `addExternalIgluServer` up to the restart (lines 178–227). The
`&&` of line 206 calls `isValidUUID` only for a non-empty `apikey`. -/
def addExternalIgluServerMutate (env : Env) (req : Request) (w : World) :
    Except World World :=
  match lookupKey "vendor_prefix" req.form, lookupKey "uri" req.form,
      lookupKey "name" req.form, lookupKey "priority" req.form with
  | some vendorArr, some uriArr, some nameArr, some priorityArr =>
    let uri := uriArr.1
    let apikey := match lookupKey "apikey" req.form with
      | some apikeyArr => apikeyArr.1
      | none => ""
    let vendor := vendorArr.1
    let name := nameArr.1
    match atoi priorityArr.1 with
    | none => Except.error (httpError "Priority must be an integer" 400 w)
    | some priority =>
      let reachable := env.isURLReachable uri
      let w := w.log (Event.isURLReachable uri reachable)
      if !reachable then
        Except.error (httpError "Given URL is not reachable" 400 w)
      else
        let w := if apikey ≠ "" then w.log (Event.isValidUUID apikey (env.isValidUUID apikey))
          else w
        if apikey ≠ "" ∧ env.isValidUUID apikey = false then
          Except.error (httpError "Given apikey is not a valid UUID." 400 w)
        else
          let externalIgluServer : ExternalIgluServer :=
            { ConfigPath := env.config.Dirs.Config ++ "/" ++ env.config.ConfigNames.IgluResolver,
              IgluInfo :=
                { VendorPrefix := vendor, Uri := uri, Apikey := apikey, Name := name,
                  Priority := priority } }
          let res := env.addExternalIgluServer externalIgluServer w.fs
          let w : World :=
            { fs := res.2,
              trace := w.trace ++ [Event.addExternalIgluServer externalIgluServer res.1] }
          match res.1 with
          | some err => Except.error (httpError err 500 w)
          | none => Except.ok w
  | _, _, _, _ => Except.error (httpError "missing parameter" 400 w)

/-- Handler `addExternalIgluServer` (lines 176–239). -/
def addExternalIgluServer (env : Env) (req : Request) (fs : FS) : World :=
  let w := World.init fs
  if req.method = "POST" then
    match addExternalIgluServerMutate env req w with
    | Except.error w => w
    | Except.ok w => restartAndReply env "streamEnrich" "added successfully" w
  else
    httpError "" 404 w

/-- Handler `addLocalIgluApikey` up to the restart (lines 243–275). -/
def addLocalIgluApikeyMutate (env : Env) (req : Request) (w : World) : Except World World :=
  match lookupKey "local_iglu_apikey" req.form with
  | none => Except.error (httpError "missing parameter" 400 w)
  | some igluApikeyArr =>
    let igluApikey := igluApikeyArr.1
    let valid := env.isValidUUID igluApikey
    let w := w.log (Event.isValidUUID igluApikey valid)
    if !valid then
      Except.error (httpError "Given apikey is not valid UUID" 400 w)
    else
      let psqlInfos : PsqlInfos :=
        { User := env.config.Psql.User, Password := env.config.Psql.Password,
          Database := env.config.Psql.Database, Addr := env.config.Psql.Addr }
      let localIglu : LocalIglu :=
        { ConfigPath := env.config.Dirs.Config ++ "/" ++ env.config.ConfigNames.IgluResolver,
          IgluApikey := igluApikey, Psql := psqlInfos }
      let res := env.addApiKey localIglu w.fs
      let w : World := { fs := res.2, trace := w.trace ++ [Event.addApiKey localIglu res.1] }
      match res.1 with
      | some err => Except.error (httpError err 500 w)
      | none => Except.ok w

/-- Handler `addLocalIgluApikey` (lines 241–287). -/
def addLocalIgluApikey (env : Env) (req : Request) (fs : FS) : World :=
  let w := World.init fs
  if req.method = "POST" then
    match addLocalIgluApikeyMutate env req w with
    | Except.error w => w
    | Except.ok w => restartAndReply env "streamEnrich" "added successfully" w
  else
    httpError "" 404 w

/-- Handler `changeUsernameAndPassword` up to the restart (lines 291–310). -/
def changeUsernameAndPasswordMutate (env : Env) (req : Request) (w : World) :
    Except World World :=
  match lookupKey "new_username" req.form, lookupKey "new_password" req.form with
  | some newUsernameArr, some newPasswordArr =>
    let newUsername := newUsernameArr.1
    let newPassword := newPasswordArr.1
    let path := env.config.Dirs.Config ++ "/" ++ env.config.ConfigNames.Caddy
    let res := env.changeCredentials path newUsername newPassword w.fs
    let w : World :=
      { fs := res.2,
        trace := w.trace ++ [Event.changeCredentials path newUsername newPassword res.1] }
    match res.1 with
    | some err => Except.error (httpError err 500 w)
    | none => Except.ok w
  | _, _ => Except.error (httpError "missing parameter" 400 w)

/-- Handler `changeUsernameAndPassword` (lines 289–323). -/
def changeUsernameAndPassword (env : Env) (req : Request) (fs : FS) : World :=
  let w := World.init fs
  if req.method = "POST" then
    match changeUsernameAndPasswordMutate env req w with
    | Except.error w => w
    | Except.ok w => restartAndReply env "caddy" "changed successfully" w
  else
    httpError "" 404 w

/-- Handler `addDomainName` up to the restart (lines 327–349). -/
def addDomainNameMutate (env : Env) (req : Request) (w : World) : Except World World :=
  match lookupKey "domain_name" req.form with
  | none => Except.error (httpError "missing parameter" 400 w)
  | some domainNameArr =>
    let domainName := domainNameArr.1
    let checked := env.checkHostDomainName domainName
    let w := w.log (Event.checkHostDomainName domainName checked)
    match checked with
    | some err => Except.error (httpError err 405 w)
    | none =>
      let path := env.config.Dirs.Config ++ "/" ++ env.config.ConfigNames.Caddy
      let res := env.changeDomainName path domainName w.fs
      let w : World :=
        { fs := res.2, trace := w.trace ++ [Event.changeDomainName path domainName res.1] }
      match res.1 with
      | some err => Except.error (httpError err 405 w)
      | none => Except.ok w

/-- Handler `addDomainName` (lines 325–362). -/
def addDomainName (env : Env) (req : Request) (fs : FS) : World :=
  let w := World.init fs
  if req.method = "POST" then
    match addDomainNameMutate env req w with
    | Except.error w => w
    | Except.ok w => restartAndReply env "caddy" "added successfully" w
  else
    httpError "" 404 w

/-- Handler `getSpminiVersion` (lines 364–377). -/
def getSpminiVersion (env : Env) (req : Request) (fs : FS) : World :=
  let w := World.init fs
  if req.method = "GET" then
    match ioReadFile env env.config.VersionFilePath w with
    | (Except.error err, w) => httpError err 500 w
    | (Except.ok versionStr, w) => replyOK versionStr w
  else
    httpError "" 404 w

/-! ## The routing table of `main` -/

/-- The six handlers that change a configuration file. -/
inductive Mutating where
  | uploadEnrichments
  | uploadIgluConfig
  | addExternalIgluServer
  | addLocalIgluApikey
  | changeUsernameAndPassword
  | addDomainName
deriving DecidableEq, Repr

/-- The eight handlers registered by `main` (lines 47–54). -/
inductive Handler where
  | restartServices
  | mutating (m : Mutating)
  | getSpminiVersion
deriving DecidableEq, Repr

/-- The part of a mutating handler before the restart. -/
def Mutating.mutate : Mutating → Env → Request → World → Except World World
  | Mutating.uploadEnrichments => uploadEnrichmentsMutate
  | Mutating.uploadIgluConfig => uploadIgluConfigMutate
  | Mutating.addExternalIgluServer => addExternalIgluServerMutate
  | Mutating.addLocalIgluApikey => addLocalIgluApikeyMutate
  | Mutating.changeUsernameAndPassword => changeUsernameAndPasswordMutate
  | Mutating.addDomainName => addDomainNameMutate

/-- The handler function. -/
def Mutating.run : Mutating → Env → Request → FS → World
  | Mutating.uploadEnrichments => ControlPlane.uploadEnrichments
  | Mutating.uploadIgluConfig => ControlPlane.uploadIgluConfig
  | Mutating.addExternalIgluServer => ControlPlane.addExternalIgluServer
  | Mutating.addLocalIgluApikey => ControlPlane.addLocalIgluApikey
  | Mutating.changeUsernameAndPassword => ControlPlane.changeUsernameAndPassword
  | Mutating.addDomainName => ControlPlane.addDomainName

/-- The handler function. -/
def Handler.run : Handler → Env → Request → FS → World
  | Handler.restartServices => ControlPlane.restartServices
  | Handler.mutating m => m.run
  | Handler.getSpminiVersion => ControlPlane.getSpminiVersion

/-- The handler `main` registers for a path (lines 47–54). -/
def route (path : String) : Option Handler :=
  if path = "/restart-services" then some Handler.restartServices
  else if path = "/enrichments" then some (Handler.mutating Mutating.uploadEnrichments)
  else if path = "/iglu-config" then some (Handler.mutating Mutating.uploadIgluConfig)
  else if path = "/external-iglu" then some (Handler.mutating Mutating.addExternalIgluServer)
  else if path = "/local-iglu-apikey" then some (Handler.mutating Mutating.addLocalIgluApikey)
  else if path = "/credentials" then
    some (Handler.mutating Mutating.changeUsernameAndPassword)
  else if path = "/domain-name" then some (Handler.mutating Mutating.addDomainName)
  else if path = "/version" then some Handler.getSpminiVersion
  else none

/-! ## Reading a trace -/

/-- A call to the restart dispatcher. -/
def Event.isRestart : Event → Bool
  | Event.restartService _ _ => true
  | Event.restartSPServices _ => true
  | _ => false

/-- A write to the `http.ResponseWriter`. -/
def Event.isResponse : Event → Bool
  | Event.writeHeader _ => true
  | Event.writeBody _ => true
  | _ => false

/-- A step of a handler's configuration change: a file operation of the upload
handlers or a call to an editor. -/
def Event.isMutation : Event → Bool
  | Event.openFile _ _ => true
  | Event.truncate _ _ _ => true
  | Event.seek _ _ _ => true
  | Event.writeString _ _ _ _ => true
  | Event.addExternalIgluServer _ _ => true
  | Event.addApiKey _ _ => true
  | Event.changeCredentials _ _ _ _ => true
  | Event.changeDomainName _ _ _ => true
  | _ => false

/-- A file operation that returned an error. -/
def Event.failedFileOp : Event → Bool
  | Event.openFile _ (some _) => true
  | Event.truncate _ _ (some _) => true
  | Event.seek _ _ (some _) => true
  | Event.writeString _ _ _ (some _) => true
  | _ => false

/-! ## What the claims speak of -/

/-- A configuration change that returned an error the handler looks at: a
failed `os.OpenFile` or an editor's error. -/
def Event.mutationFailed : Event → Bool
  | Event.openFile _ (some _) => true
  | Event.addExternalIgluServer _ (some _) => true
  | Event.addApiKey _ (some _) => true
  | Event.changeCredentials _ _ _ (some _) => true
  | Event.changeDomainName _ _ (some _) => true
  | _ => false

/-- The service that owns the configuration a handler changes, as the
specification lists them. -/
def owningService : Mutating → String
  | Mutating.uploadEnrichments => "streamEnrich"
  | Mutating.addExternalIgluServer => "streamEnrich"
  | Mutating.addLocalIgluApikey => "streamEnrich"
  | Mutating.uploadIgluConfig => "iglu"
  | Mutating.changeUsernameAndPassword => "caddy"
  | Mutating.addDomainName => "caddy"

/-- The success body of each mutating handler, as the specification lists
them. -/
def successBody : Mutating → String
  | Mutating.uploadEnrichments => "uploaded successfully"
  | Mutating.uploadIgluConfig => "uploaded successfully"
  | Mutating.addExternalIgluServer => "added successfully"
  | Mutating.addLocalIgluApikey => "added successfully"
  | Mutating.changeUsernameAndPassword => "changed successfully"
  | Mutating.addDomainName => "added successfully"

/-- The method each handler serves, as the specification lists them. -/
def Handler.method : Handler → String
  | Handler.restartServices => "PUT"
  | Handler.getSpminiVersion => "GET"
  | Handler.mutating _ => "POST"

/-- The status a handler answers a failed configuration change with. -/
def failureStatus : Mutating → Nat
  | Mutating.addDomainName => 405
  | _ => 500

/-! ## Sample surroundings and requests -/

/-- A configuration with the appliance's usual layout. -/
def sampleConfig : ControlPlaneConfig :=
  { Dirs := { Enrichments := "/enrichments", Config := "/configs" },
    ConfigNames :=
      { IgluServer := "iglu-server.conf", IgluResolver := "iglu-resolver.json",
        Caddy := "Caddyfile" },
    Psql :=
      { User := "snowplow", Password := "snowplow", Database := "iglu",
        Addr := "127.0.0.1:5432" },
    VersionFilePath := "/VERSION" }

/-- A hexadecimal digit, either case. -/
def isHexDigit (c : Char) : Bool :=
  (48 ≤ c.toNat && c.toNat ≤ 57) || (97 ≤ c.toNat && c.toNat ≤ 102) ||
    (65 ≤ c.toNat && c.toNat ≤ 70)

/-- The characters from position `i` on follow the 8-4-4-4-12 layout. -/
def uuidFrom : List Char → Nat → Bool
  | [], i => i == 36
  | c :: cs, i =>
    (if i = 8 ∨ i = 13 ∨ i = 18 ∨ i = 23 then c == '-' else isHexDigit c) && uuidFrom cs (i + 1)

/-- Surroundings in which nothing fails: a JSON check that knows a few
documents, the 8-4-4-4-12 UUID check, a domain check that refuses the empty
name and names with a space, and an API-key editor that stores the key. -/
def calmEnv : Env :=
  { config := sampleConfig,
    isJSON := fun s => decide (s ∈ ["\x7b\x7d", "[]", "[1, 2, 3]", "null"]),
    isValidUUID := fun s => uuidFrom s.data 0,
    isURLReachable := fun _ => true,
    checkHostDomainName := fun s =>
      if s = "" ∨ ' ' ∈ s.data then some "invalid domain name" else none,
    addExternalIgluServer := fun _ fs => (none, fs),
    addApiKey := fun l fs => (none, FS.write fs l.ConfigPath l.IgluApikey),
    changeCredentials := fun _ _ _ fs => (none, fs),
    changeDomainName := fun _ _ fs => (none, fs),
    restartService := fun _ _ => none,
    restartSPServices := fun _ => none,
    openFileErr := fun _ _ => none,
    truncateErr := fun _ _ => none,
    seekErr := fun _ _ => none,
    writeErr := fun _ _ _ => none,
    readFileErr := fun _ _ => none }

/-- A full disk: every write fails before its first byte. -/
def diskFullEnv : Env :=
  { calmEnv with writeErr := fun _ _ _ => some (0, "no space left on device") }

/-- A disk that fails a write after four bytes. -/
def tornEnv : Env :=
  { calmEnv with writeErr := fun _ _ _ => some (4, "input/output error") }

/-- Services that do not come back up. -/
def staleEnv : Env :=
  { calmEnv with restartService := fun _ _ => some "exit status 1" }

/-- A proxy configuration without the directives the editor looks for. -/
def brokenProxyEnv : Env :=
  { calmEnv with
    changeCredentials := fun _ _ _ fs => (some "basicauth directive not found", fs),
    changeDomainName := fun _ _ fs => (some "domain directive not found", fs) }

/-- Upload of `e.json` with content `[1, 2, 3]` to `/enrichments`. -/
def enrichmentUpload : Request :=
  { method := "POST", multipartErr := none,
    files := [("enrichmentjson", "e.json", "[1, 2, 3]")], form := [] }

/-- Upload of `e.json` with a content that is not JSON. -/
def brokenUpload : Request :=
  { method := "POST", multipartErr := none,
    files := [("enrichmentjson", "e.json", "[1, 2")], form := [] }

/-- Upload of a registry-server configuration to `/iglu-config`. -/
def igluUpload : Request :=
  { method := "POST", multipartErr := none,
    files := [("igluserverhocon", "iglu.conf", "port = 9090")], form := [] }

/-- The API-key request of the specification. -/
def apikeyRequest : Request :=
  { method := "POST", multipartErr := none, files := [],
    form := [("local_iglu_apikey", "123e4567-e89b-12d3-a456-426614174000", [])] }

/-- An external registry whose priority is `abc`. -/
def priorityRequest : Request :=
  { method := "POST", multipartErr := none, files := [],
    form := [("vendor_prefix", "com.acme", []), ("uri", "http://iglu.acme.com", []),
      ("name", "Acme", []), ("priority", "abc", [])] }

/-- The domain-name request of the specification. -/
def badDomainRequest : Request :=
  { method := "POST", multipartErr := none, files := [],
    form := [("domain_name", "bad domain", [])] }

/-- A domain-name request with a well-formed name. -/
def domainRequest : Request :=
  { method := "POST", multipartErr := none, files := [],
    form := [("domain_name", "example.com", [])] }

/-- A change of credentials. -/
def credentialsRequest : Request :=
  { method := "POST", multipartErr := none, files := [],
    form := [("new_username", "admin", []), ("new_password", "s3cret", [])] }

/-- A `GET` with no content. -/
def getRequest : Request :=
  { method := "GET", multipartErr := none, files := [], form := [] }

/-! ## Lemmas -/

/-- A file holds what was last written to it. -/
theorem FS.read_write (fs : FS) (path content : String) :
    (fs.write path content).read path = some content := by
  simp [FS.write, FS.read]

/-- Removing a file leaves the others. -/
theorem FS.read_remove_ne (fs : FS) (path other : String) (h : other ≠ path) :
    FS.read (fs.remove path) other = FS.read fs other := by
  induction fs with
  | nil => rfl
  | cons entry rest ih =>
    obtain ⟨p, c⟩ := entry
    by_cases hp : p = path
    · have hne : ¬ path = other := fun h2 => h h2.symm
      subst hp
      simp [FS.remove, FS.read, ih, hne]
    · by_cases ho : p = other
      · subst ho
        simp [FS.remove, hp, FS.read]
      · simp [FS.remove, hp, FS.read, ho, ih]

/-- Writing a file leaves the others. -/
theorem FS.read_write_ne (fs : FS) (path content other : String) (h : other ≠ path) :
    (fs.write path content).read other = fs.read other := by
  have hne : ¬ path = other := fun h2 => h h2.symm
  simp [FS.write, FS.read, hne, FS.read_remove_ne fs path other h]

/-- Taking more than there is takes everything. -/
theorem take_min_length {α : Type} (l : List α) (k : Nat) :
    l.take (min k l.length) = l.take k := by
  rcases Nat.le_total k l.length with h | h
  · rw [Nat.min_eq_left h]
  · rw [Nat.min_eq_right h, List.take_length, List.take_of_length_le h]

/-- The same for the bytes of a string. -/
theorem take_min_strlen (s : String) (k : Nat) :
    s.data.take (min k s.length) = s.data.take k :=
  take_min_length s.data k

/-- All the bytes of a string. -/
theorem take_strlen (s : String) : s.data.take s.length = s.data :=
  List.take_length s.data

/-- A failed `os.OpenFile` changes nothing. -/
theorem osOpenFile_failed (env : Env) (path : String) (w : World) (err : String)
    (h : env.openFileErr path w.fs = some err) :
    osOpenFile env path w = (Except.error err, w.log (Event.openFile path (some err))) := by
  simp [osOpenFile, h]

/-- A successful `os.OpenFile` leaves the content, or an empty new file. -/
theorem osOpenFile_opened (env : Env) (path : String) (w : World)
    (h : env.openFileErr path w.fs = none) :
    ∃ w1, osOpenFile env path w = (Except.ok { path := path, offset := 0 }, w1) ∧
      w1.trace = w.trace ++ [Event.openFile path none] ∧
      w1.fs.read path = some ((w.fs.read path).getD "") ∧
      ∀ other, other ≠ path → w1.fs.read other = w.fs.read other := by
  cases hold : w.fs.read path with
  | none =>
    refine ⟨_, by simp only [osOpenFile, h, hold]; rfl, rfl, ?_, ?_⟩
    · simp [FS.read_write]
    · intro other hne
      exact FS.read_write_ne _ _ _ _ hne
  | some old =>
    refine ⟨_, by simp only [osOpenFile, h, hold]; rfl, rfl, ?_, ?_⟩
    · simp [hold]
    · intro other _
      rfl

/-- `f.Truncate(0)` empties the file, or fails and leaves it. -/
theorem fileTruncate_zero (env : Env) (path : String) (w : World) :
    ∃ terr, (fileTruncate env { path := path, offset := 0 } 0 w).2.trace =
        w.trace ++ [Event.truncate path 0 terr] ∧
      (fileTruncate env { path := path, offset := 0 } 0 w).2.fs.read path =
        (if terr = none then some "" else w.fs.read path) ∧
      ∀ other, other ≠ path →
        (fileTruncate env { path := path, offset := 0 } 0 w).2.fs.read other =
          w.fs.read other := by
  cases h : env.truncateErr path w.fs with
  | some err =>
    refine ⟨some err, ?_, ?_, ?_⟩ <;> simp [fileTruncate, h, World.log]
  | none =>
    refine ⟨none, ?_, ?_, ?_⟩
    · simp [fileTruncate, h]
    · simp only [fileTruncate, h, List.take_zero, Nat.zero_sub, List.replicate_zero,
        List.append_nil, FS.read_write, if_true]
    · intro other hne
      simp only [fileTruncate, h]
      exact FS.read_write_ne _ _ _ _ hne

/-- `f.Seek(0, 0)` on a fresh handle leaves offset and files as they are. -/
theorem fileSeek_zero (env : Env) (path : String) (w : World) :
    (fileSeek env { path := path, offset := 0 } 0 w).2.1 = { path := path, offset := 0 } ∧
      (fileSeek env { path := path, offset := 0 } 0 w).2.2.fs = w.fs ∧
      ∃ serr, (fileSeek env { path := path, offset := 0 } 0 w).2.2.trace =
        w.trace ++ [Event.seek path 0 serr] := by
  cases h : env.seekErr path w.fs with
  | some err => exact ⟨by simp [fileSeek, h], by simp [fileSeek, h, World.log],
      some err, by simp [fileSeek, h, World.log]⟩
  | none => exact ⟨by simp [fileSeek, h], by simp [fileSeek, h, World.log],
      none, by simp [fileSeek, h, World.log]⟩

/-- `io.WriteString` at offset 0 overwrites as many bytes as it wrote. -/
theorem fileWriteString_zero (env : Env) (path s : String) (w : World) :
    ∃ n werr,
      (fileWriteString env { path := path, offset := 0 } s w).2.2.trace =
        w.trace ++ [Event.writeString path s n werr] ∧
      n ≤ s.length ∧ (werr = none → n = s.length) ∧
      (fileWriteString env { path := path, offset := 0 } s w).2.2.fs.read path =
        some (String.mk (s.data.take n ++ ((w.fs.read path).getD "").data.drop n)) ∧
      ∀ other, other ≠ path →
        (fileWriteString env { path := path, offset := 0 } s w).2.2.fs.read other =
          w.fs.read other := by
  cases h : env.writeErr path s w.fs with
  | some failure =>
    refine ⟨min failure.1 s.length, some failure.2, ?_, Nat.min_le_right _ _, ?_, ?_, ?_⟩
    · simp [fileWriteString, h]
    · intro hnone
      cases hnone
    · simp [fileWriteString, h, writeAt, FS.read_write, take_min_strlen]
    · intro other hne
      simp only [fileWriteString, h]
      exact FS.read_write_ne _ _ _ _ hne
  | none =>
    refine ⟨s.length, none, ?_, Nat.le_refl _, fun _ => rfl, ?_, ?_⟩
    · simp [fileWriteString, h]
    · simp [fileWriteString, h, writeAt, FS.read_write, take_strlen]
    · intro other hne
      simp only [fileWriteString, h]
      exact FS.read_write_ne _ _ _ _ hne

/-- What the write of the upload handlers returns, in both cases. -/
theorem inPlaceWrite_spec (env : Env) (path fileContent : String) (w : World) :
    match inPlaceWrite env path fileContent w with
    | Except.error w' =>
      ∃ err, w'.fs = w.fs ∧
        w'.trace = w.trace ++
          [Event.openFile path (some err), Event.writeHeader 500, Event.writeBody (err ++ "\n")]
    | Except.ok w' =>
      ∃ terr serr n werr,
        w'.trace = w.trace ++
          [Event.openFile path none, Event.truncate path 0 terr, Event.seek path 0 serr,
            Event.writeString path fileContent n werr] ∧
        n ≤ fileContent.length ∧ (werr = none → n = fileContent.length) ∧
        w'.fs.read path = some (String.mk (fileContent.data.take n ++
          if terr = none then [] else ((w.fs.read path).getD "").data.drop n)) ∧
        ∀ other, other ≠ path → w'.fs.read other = w.fs.read other := by
  cases hopen : env.openFileErr path w.fs with
  | some err =>
    simp [inPlaceWrite, osOpenFile_failed env path w err hopen, httpError, World.log]
  | none =>
    obtain ⟨w1, hw1, htr1, hrd1, hfr1⟩ := osOpenFile_opened env path w hopen
    obtain ⟨terr, htr2, hrd2, hfr2⟩ := fileTruncate_zero env path w1
    obtain ⟨hf3, hfs3, serr, htr3⟩ :=
      fileSeek_zero env path (fileTruncate env { path := path, offset := 0 } 0 w1).2
    obtain ⟨n, werr, htr4, hn, hfull, hrd4, hfr4⟩ :=
      fileWriteString_zero env path fileContent
        (fileSeek env { path := path, offset := 0 } 0
          (fileTruncate env { path := path, offset := 0 } 0 w1).2).2.2
    simp only [inPlaceWrite, hw1, hf3]
    refine ⟨terr, serr, n, werr, ?_, hn, hfull, ?_, ?_⟩
    · rw [htr4, htr3, htr2, htr1]
      simp
    · rw [hrd4, hfs3, hrd2]
      cases terr with
      | none => simp
      | some e => simp [hrd1]
    · intro other hne
      rw [hfr4 other hne, hfs3, hfr2 other hne, hfr1 other hne]

/-- The write of the upload handlers when the request goes on. -/
theorem inPlaceWrite_ok (env : Env) (path fileContent : String) (w w' : World)
    (h : inPlaceWrite env path fileContent w = Except.ok w') :
    ∃ terr serr n werr,
      w'.trace = w.trace ++
        [Event.openFile path none, Event.truncate path 0 terr, Event.seek path 0 serr,
          Event.writeString path fileContent n werr] ∧
      n ≤ fileContent.length ∧ (werr = none → n = fileContent.length) ∧
      w'.fs.read path = some (String.mk (fileContent.data.take n ++
        if terr = none then [] else ((w.fs.read path).getD "").data.drop n)) ∧
      ∀ other, other ≠ path → w'.fs.read other = w.fs.read other := by
  have hspec := inPlaceWrite_spec env path fileContent w
  rw [h] at hspec
  exact hspec

/-- The write of the upload handlers when the request returns. -/
theorem inPlaceWrite_error (env : Env) (path fileContent : String) (w w' : World)
    (h : inPlaceWrite env path fileContent w = Except.error w') :
    ∃ err, w'.fs = w.fs ∧
      w'.trace = w.trace ++
        [Event.openFile path (some err), Event.writeHeader 500, Event.writeBody (err ++ "\n")] := by
  have hspec := inPlaceWrite_spec env path fileContent w
  rw [h] at hspec
  exact hspec

/-- Every mutating handler is its method gate, its part before the restart
and the shared tail. -/
theorem run_eq (m : Mutating) (env : Env) (req : Request) (fs : FS) :
    m.run env req fs =
      if req.method = "POST" then
        match m.mutate env req (World.init fs) with
        | Except.error w => w
        | Except.ok w => restartAndReply env (owningService m) (successBody m) w
      else httpError "" 404 (World.init fs) := by
  cases m <;> rfl

/-- When the part before the restart goes through, it has neither restarted
nor answered, no failure it looks at has occurred, and its last call is a
step of the change. -/
theorem mutate_ok_trace (m : Mutating) (env : Env) (req : Request) (fs : FS) (w1 : World)
    (h : m.mutate env req (World.init fs) = Except.ok w1) :
    (∀ e ∈ w1.trace, e.isRestart = false ∧ e.isResponse = false ∧ e.mutationFailed = false) ∧
      ∃ e, w1.trace.getLast? = some e ∧ e.isMutation = true := by
  cases m with
  | addDomainName =>
    simp only [Mutating.mutate, addDomainNameMutate] at h
    split at h
    · cases h
    · split at h
      · cases h
      · split at h
        · cases h
        · rename_i hres
          injection h with h
          subst h
          simp only [World.log, World.init] at hres
          simp [World.log, World.init, Event.isRestart, Event.isResponse, Event.isMutation,
            Event.mutationFailed, hres]
  | changeUsernameAndPassword =>
    simp only [Mutating.mutate, changeUsernameAndPasswordMutate] at h
    split at h
    · split at h
      · cases h
      · rename_i hres
        injection h with h
        subst h
        simp only [World.log, World.init] at hres
        simp [World.log, World.init, Event.isRestart, Event.isResponse, Event.isMutation,
          Event.mutationFailed, hres]
    · cases h
  | addLocalIgluApikey =>
    simp only [Mutating.mutate, addLocalIgluApikeyMutate] at h
    split at h
    · cases h
    · split at h
      · cases h
      · split at h
        · cases h
        · rename_i hres
          injection h with h
          subst h
          simp only [World.log, World.init] at hres
          simp [World.log, World.init, Event.isRestart, Event.isResponse, Event.isMutation,
            Event.mutationFailed, hres]
  | addExternalIgluServer =>
    simp only [Mutating.mutate, addExternalIgluServerMutate] at h
    split at h
    · split at h
      · cases h
      · split at h
        · cases h
        · split at h
          · cases h
          · split at h
            · cases h
            · rename_i hres
              injection h with h
              subst h
              simp only [World.log, World.init]
              simp only [World.log, World.init] at hres
              split <;> rename_i hk <;> simp [hk] at hres <;>
              simp [World.log, World.init, Event.isRestart, Event.isResponse, Event.isMutation,
                Event.mutationFailed, hres]
    · cases h
  | uploadEnrichments =>
    simp only [Mutating.mutate, uploadEnrichmentsMutate] at h
    split at h
    · cases h
    · split at h
      · cases h
      · split at h
        · cases h
        · obtain ⟨terr, serr, n, werr, htr, -, -, -, -⟩ := inPlaceWrite_ok _ _ _ _ _ h
          rw [htr]
          simp [World.init, World.log, Event.isRestart, Event.isResponse, Event.isMutation,
            Event.mutationFailed]
  | uploadIgluConfig =>
    simp only [Mutating.mutate, uploadIgluConfigMutate] at h
    split at h
    · cases h
    · split at h
      · cases h
      · obtain ⟨terr, serr, n, werr, htr, -, -, -, -⟩ := inPlaceWrite_ok _ _ _ _ _ h
        rw [htr]
        simp [World.init, Event.isRestart, Event.isResponse, Event.isMutation,
          Event.mutationFailed]

/-- When the part before the restart returns, it has answered with a status
other than 200, has not restarted, and has answered a failed change with the
status of `failureStatus`. -/
theorem mutate_error_trace (m : Mutating) (env : Env) (req : Request) (fs : FS) (w' : World)
    (h : m.mutate env req (World.init fs) = Except.error w') :
    ∃ code, w'.status = some code ∧ code ≠ 200 ∧
      (∀ e ∈ w'.trace, e.isRestart = false) ∧
      ((∃ e ∈ w'.trace, e.mutationFailed = true) → code = failureStatus m) := by
  cases m with
  | uploadEnrichments =>
    simp only [Mutating.mutate, uploadEnrichmentsMutate] at h
    split at h
    · injection h with h
      subst h
      simp [httpError, World.log, World.init, World.status, statusOf, Event.isRestart,
        Event.mutationFailed]
    · split at h
      · injection h with h
        subst h
        simp [httpError, World.log, World.init, World.status, statusOf, Event.isRestart,
          Event.mutationFailed]
      · split at h
        · injection h with h
          subst h
          simp [httpError, World.log, World.init, World.status, statusOf, Event.isRestart,
            Event.mutationFailed]
        · obtain ⟨err, -, htr⟩ := inPlaceWrite_error _ _ _ _ _ h
          simp [World.status, htr, World.log, World.init, statusOf, Event.isRestart,
            failureStatus]
  | uploadIgluConfig =>
    simp only [Mutating.mutate, uploadIgluConfigMutate] at h
    split at h
    · injection h with h
      subst h
      simp [httpError, World.log, World.init, World.status, statusOf, Event.isRestart,
        Event.mutationFailed]
    · split at h
      · injection h with h
        subst h
        simp [httpError, World.log, World.init, World.status, statusOf, Event.isRestart,
          Event.mutationFailed]
      · obtain ⟨err, -, htr⟩ := inPlaceWrite_error _ _ _ _ _ h
        simp [World.status, htr, World.log, World.init, statusOf, Event.isRestart,
          failureStatus]
  | addExternalIgluServer =>
    simp only [Mutating.mutate, addExternalIgluServerMutate] at h
    repeat' (split at h)
    all_goals first
      | cases h; done
      | (injection h with h
         subst h
         simp [httpError, World.log, World.init, World.status, statusOf, Event.isRestart,
           Event.mutationFailed, failureStatus])
  | addLocalIgluApikey =>
    simp only [Mutating.mutate, addLocalIgluApikeyMutate] at h
    repeat' (split at h)
    all_goals first
      | cases h; done
      | (injection h with h
         subst h
         simp [httpError, World.log, World.init, World.status, statusOf, Event.isRestart,
           Event.mutationFailed, failureStatus])
  | changeUsernameAndPassword =>
    simp only [Mutating.mutate, changeUsernameAndPasswordMutate] at h
    repeat' (split at h)
    all_goals first
      | cases h; done
      | (injection h with h
         subst h
         simp [httpError, World.log, World.init, World.status, statusOf, Event.isRestart,
           Event.mutationFailed, failureStatus])
  | addDomainName =>
    simp only [Mutating.mutate, addDomainNameMutate] at h
    repeat' (split at h)
    all_goals first
      | cases h; done
      | (injection h with h
         subst h
         simp [httpError, World.log, World.init, World.status, statusOf, Event.isRestart,
           Event.mutationFailed, failureStatus])

/-- Calls that are not responses do not set the status. -/
theorem statusOf_append (l r : List Event) (h : ∀ e ∈ l, e.isResponse = false) :
    statusOf (l ++ r) = statusOf r := by
  induction l with
  | nil => rfl
  | cons e rest ih =>
    have he := h e (List.mem_cons_self _ _)
    have hrest : ∀ x ∈ rest, x.isResponse = false :=
      fun x hx => h x (List.mem_cons_of_mem _ hx)
    cases e <;> simp_all [statusOf, Event.isResponse]

/-- A trace without restarts. -/
theorem filter_isRestart_eq_nil (l : List Event) (h : ∀ e ∈ l, e.isRestart = false) :
    l.filter Event.isRestart = [] := by
  rw [List.filter_eq_nil_iff]
  intro e he
  simp [h e he]

/-- The shared tail when the restart succeeds. -/
theorem restartAndReply_ok (env : Env) (service okBody : String) (w : World)
    (h : env.restartService service w.fs = none) :
    restartAndReply env service okBody w =
      { fs := w.fs,
        trace := w.trace ++
          [Event.restartService service none, Event.writeHeader 200, Event.writeBody okBody] } := by
  simp [restartAndReply, h, replyOK, World.log]

/-- The shared tail when the restart fails. -/
theorem restartAndReply_failed (env : Env) (service okBody err : String) (w : World)
    (h : env.restartService service w.fs = some err) :
    restartAndReply env service okBody w =
      { fs := w.fs,
        trace := w.trace ++
          [Event.restartService service (some err), Event.writeHeader 500,
            Event.writeBody (err ++ "\n")] } := by
  simp [restartAndReply, h, httpError, World.log]

/-! ## The claims -/

/-- C1, evaluated where it fails: on a full disk `io.WriteString` writes
nothing and returns an error, which `uploadEnrichments` drops; the file is
left empty, `restartService("streamEnrich")` is still called and the request
is answered with 200. -/
theorem write_failure_still_restarts :
    uploadEnrichments diskFullEnv enrichmentUpload [("/enrichments/e.json", "[1, 2, 3, 4]")] =
      { fs := [("/enrichments/e.json", "")],
        trace :=
          [Event.isJSON "[1, 2, 3]" true,
            Event.openFile "/enrichments/e.json" none,
            Event.truncate "/enrichments/e.json" 0 none,
            Event.seek "/enrichments/e.json" 0 none,
            Event.writeString "/enrichments/e.json" "[1, 2, 3]" 0
              (some "no space left on device"),
            Event.restartService "streamEnrich" none,
            Event.writeHeader 200,
            Event.writeBody "uploaded successfully"] } := by
  decide

/-- The part of C1 that holds: in every mutating handler, once `os.OpenFile`
or an editor has returned an error, `restartService` is not called. -/
theorem detected_failure_no_restart (m : Mutating) (env : Env) (req : Request) (fs : FS)
    (e : Event) (he : e ∈ (m.run env req fs).trace) (hfail : e.mutationFailed = true) :
    ∀ e' ∈ (m.run env req fs).trace, e'.isRestart = false := by
  rw [run_eq] at he ⊢
  by_cases hm : req.method = "POST"
  · rw [if_pos hm] at he ⊢
    cases hmut : m.mutate env req (World.init fs) with
    | error w' =>
      obtain ⟨code, -, -, hno, -⟩ := mutate_error_trace m env req fs w' hmut
      exact hno
    | ok w1 =>
      rw [hmut] at he
      dsimp only at he
      exfalso
      have hclean := (mutate_ok_trace m env req fs w1 hmut).1
      cases hr : env.restartService (owningService m) w1.fs with
      | none =>
        rw [restartAndReply_ok env _ _ w1 hr] at he
        simp only [List.mem_append, List.mem_cons, List.mem_singleton, List.not_mem_nil,
          or_false] at he
        rcases he with he | he | he | he
        · have := (hclean e he).2.2
          simp [this] at hfail
        all_goals (subst he; simp [Event.mutationFailed] at hfail)
      | some err =>
        rw [restartAndReply_failed env _ _ err w1 hr] at he
        simp only [List.mem_append, List.mem_cons, List.mem_singleton, List.not_mem_nil,
          or_false] at he
        rcases he with he | he | he | he
        · have := (hclean e he).2.2
          simp [this] at hfail
        all_goals (subst he; simp [Event.mutationFailed] at hfail)
  · rw [if_neg hm]
    simp [httpError, World.log, World.init, Event.isRestart]

/-- C2 as stated fails: a write of `port = 9090` over `port = 8080` that
breaks after four bytes leaves `port` in the file, which is neither the old
nor the new content and is shorter than both. -/
theorem torn_write_leaves_fragment :
    (uploadIgluConfig tornEnv igluUpload [("/configs/iglu-server.conf", "port = 8080")]).fs.read
        "/configs/iglu-server.conf" = some "port" ∧
      Event.writeString "/configs/iglu-server.conf" "port = 9090" 4 (some "input/output error") ∈
        (uploadIgluConfig tornEnv igluUpload
          [("/configs/iglu-server.conf", "port = 8080")]).trace ∧
      "port" ≠ "port = 8080" ∧ "port" ≠ "port = 9090" ∧
      "port".length < "port = 8080".length ∧ "port".length < "port = 9090".length := by
  decide

/-- C2 amended: the write of `uploadEnrichments` and `uploadIgluConfig` either
fails at `os.OpenFile`, and then the file system is as it was, or goes on,
and then, when `f.Truncate(0)` has succeeded, it leaves in the file exactly
the first `n` bytes of the new content, `n` being the number of bytes
`io.WriteString` wrote: all of them when it returned no error, possibly fewer
(or none) when it failed. -/
theorem in_place_write_outcome (env : Env) (path fileContent : String) (w : World) :
    (∃ w' err, inPlaceWrite env path fileContent w = Except.error w' ∧
        env.openFileErr path w.fs = some err ∧ w'.fs = w.fs) ∨
    (∃ w' terr serr n werr, inPlaceWrite env path fileContent w = Except.ok w' ∧
        w'.trace = w.trace ++
          [Event.openFile path none, Event.truncate path 0 terr, Event.seek path 0 serr,
            Event.writeString path fileContent n werr] ∧
        n ≤ fileContent.length ∧ (werr = none → n = fileContent.length) ∧
        (terr = none → w'.fs.read path = some (String.mk (fileContent.data.take n))) ∧
        (terr = none → werr = none → w'.fs.read path = some fileContent)) := by
  cases hw : inPlaceWrite env path fileContent w with
  | error w' =>
    left
    obtain ⟨err, hfs, htr⟩ := inPlaceWrite_error _ _ _ _ _ hw
    cases hopen : env.openFileErr path w.fs with
    | some err2 => exact ⟨w', err2, rfl, rfl, hfs⟩
    | none =>
      obtain ⟨w1, hw1, -⟩ := osOpenFile_opened env path w hopen
      simp [inPlaceWrite, hw1] at hw
  | ok w' =>
    right
    obtain ⟨terr, serr, n, werr, htr, hn, hfull, hread, -⟩ := inPlaceWrite_ok _ _ _ _ _ hw
    refine ⟨w', terr, serr, n, werr, rfl, htr, hn, hfull, ?_, ?_⟩
    · intro hterr
      rw [hread, hterr]
      simp
    · intro hterr hwerr
      rw [hread, hterr, hfull hwerr]
      simp [take_strlen]

/-- C2 amended, at the torn write of `port = 9090`: the write goes on after
`os.OpenFile` and, the truncation having succeeded, leaves a prefix of the new
content. -/
theorem in_place_write_outcome_witness :
    (∃ w' err, inPlaceWrite tornEnv "/configs/iglu-server.conf" "port = 9090"
          (World.init [("/configs/iglu-server.conf", "port = 8080")]) = Except.error w' ∧
        tornEnv.openFileErr "/configs/iglu-server.conf"
          (World.init [("/configs/iglu-server.conf", "port = 8080")]).fs = some err ∧
        w'.fs = (World.init [("/configs/iglu-server.conf", "port = 8080")]).fs) ∨
    (∃ w' terr serr n werr, inPlaceWrite tornEnv "/configs/iglu-server.conf" "port = 9090"
          (World.init [("/configs/iglu-server.conf", "port = 8080")]) = Except.ok w' ∧
        w'.trace = (World.init [("/configs/iglu-server.conf", "port = 8080")]).trace ++
          [Event.openFile "/configs/iglu-server.conf" none,
            Event.truncate "/configs/iglu-server.conf" 0 terr,
            Event.seek "/configs/iglu-server.conf" 0 serr,
            Event.writeString "/configs/iglu-server.conf" "port = 9090" n werr] ∧
        n ≤ "port = 9090".length ∧ (werr = none → n = "port = 9090".length) ∧
        (terr = none → w'.fs.read "/configs/iglu-server.conf" =
          some (String.mk ("port = 9090".data.take n))) ∧
        (terr = none → werr = none →
          w'.fs.read "/configs/iglu-server.conf" = some "port = 9090")) :=
  in_place_write_outcome tornEnv "/configs/iglu-server.conf" "port = 9090"
    (World.init [("/configs/iglu-server.conf", "port = 8080")])

/-- C3: a POST to `/enrichments` whose uploaded content `isJSON` rejects is
answered with 400; the file system is unchanged and the only call made is
the one to `isJSON`: no file is opened, truncated or written and
`restartService` is not called. -/
theorem invalid_json_rejected (env : Env) (req : Request) (fs : FS)
    (filename fileContent : String)
    (hm : req.method = "POST") (hparse : req.multipartErr = none)
    (hfile : req.formFile "enrichmentjson" = Except.ok (filename, fileContent))
    (hjson : env.isJSON fileContent = false) :
    (uploadEnrichments env req fs).status = some 400 ∧
      (uploadEnrichments env req fs).fs = fs ∧
      (uploadEnrichments env req fs).trace =
        [Event.isJSON fileContent false, Event.writeHeader 400,
          Event.writeBody "JSON is not valid\n"] := by
  simp [uploadEnrichments, uploadEnrichmentsMutate, hm, hparse, hfile, hjson, httpError,
    World.log, World.init, World.status, statusOf]

/-- Witness of C3: the upload of `[1, 2`. -/
theorem invalid_json_rejected_witness :
    (uploadEnrichments calmEnv brokenUpload [("/enrichments/e.json", "[]")]).status = some 400 ∧
      (uploadEnrichments calmEnv brokenUpload [("/enrichments/e.json", "[]")]).fs =
        [("/enrichments/e.json", "[]")] ∧
      (uploadEnrichments calmEnv brokenUpload [("/enrichments/e.json", "[]")]).trace =
        [Event.isJSON "[1, 2" false, Event.writeHeader 400,
          Event.writeBody "JSON is not valid\n"] :=
  invalid_json_rejected calmEnv brokenUpload [("/enrichments/e.json", "[]")] "e.json" "[1, 2"
    (by decide) (by decide) (by rfl) (by decide)

/-- C4: a POST to `/enrichments` with valid JSON content, whatever the target
file held before (nothing, less, or more), leaves exactly the uploaded
content in `<enrichments dir>/<uploaded filename>` when no file operation of
the request returned an error. -/
theorem enrichments_roundtrip (env : Env) (req : Request) (fs : FS)
    (filename fileContent : String)
    (hm : req.method = "POST") (hparse : req.multipartErr = none)
    (hfile : req.formFile "enrichmentjson" = Except.ok (filename, fileContent))
    (hjson : env.isJSON fileContent = true)
    (hio : ∀ e ∈ (uploadEnrichments env req fs).trace, e.failedFileOp = false) :
    (uploadEnrichments env req fs).fs.read (env.config.Dirs.Enrichments ++ "/" ++ filename) =
      some fileContent := by
  have hrun : uploadEnrichments env req fs =
      match inPlaceWrite env (env.config.Dirs.Enrichments ++ "/" ++ filename) fileContent
          ((World.init fs).log (Event.isJSON fileContent true)) with
      | Except.error w => w
      | Except.ok w => restartAndReply env "streamEnrich" "uploaded successfully" w := by
    simp [uploadEnrichments, uploadEnrichmentsMutate, hm, hparse, hfile, hjson]
  rw [hrun] at hio ⊢
  cases hw : inPlaceWrite env (env.config.Dirs.Enrichments ++ "/" ++ filename) fileContent
      ((World.init fs).log (Event.isJSON fileContent true)) with
  | error w' =>
    rw [hw] at hio
    obtain ⟨err, -, htr⟩ := inPlaceWrite_error _ _ _ _ _ hw
    have := hio (Event.openFile (env.config.Dirs.Enrichments ++ "/" ++ filename) (some err))
      (by simp [htr])
    simp [Event.failedFileOp] at this
  | ok w' =>
    rw [hw] at hio
    dsimp only at hio
    obtain ⟨terr, serr, n, werr, htr, -, hfull, hread, -⟩ := inPlaceWrite_ok _ _ _ _ _ hw
    have hfs : (restartAndReply env "streamEnrich" "uploaded successfully" w').fs = w'.fs := by
      unfold restartAndReply
      simp only []
      split <;> rfl
    have hsub : ∀ e ∈ w'.trace,
        e ∈ (restartAndReply env "streamEnrich" "uploaded successfully" w').trace := by
      intro e he
      unfold restartAndReply
      simp only []
      split <;> simp [httpError, replyOK, World.log, he]
    have hterr : terr = none := by
      have := hio _ (hsub (Event.truncate (env.config.Dirs.Enrichments ++ "/" ++ filename) 0 terr)
        (by simp [htr]))
      cases terr with
      | none => rfl
      | some x => simp [Event.failedFileOp] at this
    have hwerr : werr = none := by
      have := hio _ (hsub (Event.writeString (env.config.Dirs.Enrichments ++ "/" ++ filename)
        fileContent n werr) (by simp [htr]))
      cases werr with
      | none => rfl
      | some x => simp [Event.failedFileOp] at this
    dsimp only
    rw [hfs, hread, hfull hwerr, hterr]
    simp [take_strlen]

/-- Witness of C4: `[1, 2, 3]` uploaded over a longer file. -/
theorem enrichments_roundtrip_witness :
    (uploadEnrichments calmEnv enrichmentUpload
        [("/enrichments/e.json", "[1, 2, 3, 4, 5, 6]")]).fs.read "/enrichments/e.json" =
      some "[1, 2, 3]" :=
  enrichments_roundtrip calmEnv enrichmentUpload [("/enrichments/e.json", "[1, 2, 3, 4, 5, 6]")]
    "e.json" "[1, 2, 3]" (by decide) (by decide) (by rfl) (by decide) (by decide)

/-- C5: a mutating handler that answers 200 has called `restartService`
once, with the service that owns the configuration, right after the last
step of the change and right before it wrote the header and the success
body. For the API-key request of the specification the handler, when it
answers 200, has passed that key to `addApiKey` and restarted `streamEnrich`
once. -/
theorem success_restarts_owner_once :
    (∀ (m : Mutating) (env : Env) (req : Request) (fs : FS),
      (m.run env req fs).status = some 200 →
      ∃ w1, m.mutate env req (World.init fs) = Except.ok w1 ∧
        (m.run env req fs).trace = w1.trace ++
          [Event.restartService (owningService m) none, Event.writeHeader 200,
            Event.writeBody (successBody m)] ∧
        (∀ e ∈ w1.trace, e.isRestart = false ∧ e.isResponse = false) ∧
        (∃ e, w1.trace.getLast? = some e ∧ e.isMutation = true) ∧
        (m.run env req fs).trace.filter Event.isRestart =
          [Event.restartService (owningService m) none]) ∧
    (∀ (env : Env) (req : Request) (fs : FS) (rest : List String),
      req.method = "POST" →
      lookupKey "local_iglu_apikey" req.form =
        some ("123e4567-e89b-12d3-a456-426614174000", rest) →
      (addLocalIgluApikey env req fs).status = some 200 →
      (addLocalIgluApikey env req fs).trace =
        [Event.isValidUUID "123e4567-e89b-12d3-a456-426614174000" true,
          Event.addApiKey
            { ConfigPath := env.config.Dirs.Config ++ "/" ++ env.config.ConfigNames.IgluResolver,
              IgluApikey := "123e4567-e89b-12d3-a456-426614174000",
              Psql := env.config.Psql } none,
          Event.restartService "streamEnrich" none,
          Event.writeHeader 200,
          Event.writeBody "added successfully"]) := by
  constructor
  · intro m env req fs h200
    rw [run_eq] at h200 ⊢
    by_cases hm : req.method = "POST"
    · rw [if_pos hm] at h200 ⊢
      cases hmut : m.mutate env req (World.init fs) with
      | error w' =>
        rw [hmut] at h200
        obtain ⟨code, hcode, hne, -, -⟩ := mutate_error_trace m env req fs w' hmut
        dsimp only at h200
        rw [hcode] at h200
        injection h200 with h200
        exact absurd h200 hne
      | ok w1 =>
        rw [hmut] at h200
        dsimp only at h200 ⊢
        obtain ⟨hclean, hlast⟩ := mutate_ok_trace m env req fs w1 hmut
        cases hr : env.restartService (owningService m) w1.fs with
        | some err =>
          rw [restartAndReply_failed env _ _ err w1 hr] at h200
          simp only [World.status] at h200
          rw [statusOf_append _ _ (fun e he => (hclean e he).2.1)] at h200
          simp [statusOf] at h200
        | none =>
          rw [restartAndReply_ok env _ _ w1 hr]
          refine ⟨w1, rfl, rfl, fun e he => ⟨(hclean e he).1, (hclean e he).2.1⟩, hlast, ?_⟩
          rw [List.filter_append, filter_isRestart_eq_nil _ (fun e he => (hclean e he).1)]
          simp [List.filter, Event.isRestart]
    · rw [if_neg hm] at h200
      simp [httpError, World.log, World.init, World.status, statusOf] at h200
  · intro env req fs rest hm hkey h200
    cases hv : env.isValidUUID "123e4567-e89b-12d3-a456-426614174000" <;>
    cases hed : (env.addApiKey
        { ConfigPath := env.config.Dirs.Config ++ "/" ++ env.config.ConfigNames.IgluResolver,
          IgluApikey := "123e4567-e89b-12d3-a456-426614174000",
          Psql := env.config.Psql } fs).1 <;>
    cases hr : env.restartService "streamEnrich" (env.addApiKey
        { ConfigPath := env.config.Dirs.Config ++ "/" ++ env.config.ConfigNames.IgluResolver,
          IgluApikey := "123e4567-e89b-12d3-a456-426614174000",
          Psql := env.config.Psql } fs).2 <;>
    simp [addLocalIgluApikey, addLocalIgluApikeyMutate, hm, hkey, hv, hed, hr, restartAndReply,
      httpError, replyOK, World.log, World.init, World.status, statusOf] at h200 ⊢

/-- Witness of C5: the API-key request of the specification, answered with
200, and the general statement at the same request. -/
theorem success_restarts_owner_once_witness :
    (addLocalIgluApikey calmEnv apikeyRequest []).trace =
        [Event.isValidUUID "123e4567-e89b-12d3-a456-426614174000" true,
          Event.addApiKey
            { ConfigPath := "/configs/iglu-resolver.json",
              IgluApikey := "123e4567-e89b-12d3-a456-426614174000",
              Psql := sampleConfig.Psql } none,
          Event.restartService "streamEnrich" none,
          Event.writeHeader 200,
          Event.writeBody "added successfully"] ∧
      (Mutating.addLocalIgluApikey.run calmEnv apikeyRequest []).trace.filter Event.isRestart =
        [Event.restartService "streamEnrich" none] :=
  ⟨success_restarts_owner_once.2 calmEnv apikeyRequest [] [] (by decide) (by decide) (by decide),
    (success_restarts_owner_once.1 Mutating.addLocalIgluApikey calmEnv apikeyRequest []
      (by decide)).elim (fun _ h => h.2.2.2.2)⟩

/-- C6: when the part of a mutating handler before the restart has gone
through and `restartService` returns an error, the handler answers 500 and
does nothing else: the file system it leaves is the one the change left, and
after the change the trace holds the restart call and the response only. -/
theorem restart_failure_keeps_mutation (m : Mutating) (env : Env) (req : Request) (fs : FS)
    (w1 : World) (err : String)
    (hm : req.method = "POST")
    (hmut : m.mutate env req (World.init fs) = Except.ok w1)
    (hrestart : env.restartService (owningService m) w1.fs = some err) :
    (m.run env req fs).status = some 500 ∧
      (m.run env req fs).fs = w1.fs ∧
      (m.run env req fs).trace = w1.trace ++
        [Event.restartService (owningService m) (some err), Event.writeHeader 500,
          Event.writeBody (err ++ "\n")] := by
  have hclean := (mutate_ok_trace m env req fs w1 hmut).1
  have hrun : m.run env req fs =
      { fs := w1.fs,
        trace := w1.trace ++
          [Event.restartService (owningService m) (some err), Event.writeHeader 500,
            Event.writeBody (err ++ "\n")] } := by
    rw [run_eq, if_pos hm, hmut]
    exact restartAndReply_failed env _ _ err w1 hrestart
  rw [hrun]
  refine ⟨?_, rfl, rfl⟩
  simp only [World.status]
  rw [statusOf_append _ _ (fun e he => (hclean e he).2.1)]
  rfl

/-- Witness of C6: new credentials are written, the proxy does not restart. -/
theorem restart_failure_keeps_mutation_witness :
    (Mutating.changeUsernameAndPassword.run staleEnv credentialsRequest
        [("/configs/Caddyfile", "basicauth / admin admin")]).status = some 500 ∧
      (Mutating.changeUsernameAndPassword.run staleEnv credentialsRequest
        [("/configs/Caddyfile", "basicauth / admin admin")]).fs =
        [("/configs/Caddyfile", "basicauth / admin admin")] ∧
      (Mutating.changeUsernameAndPassword.run staleEnv credentialsRequest
        [("/configs/Caddyfile", "basicauth / admin admin")]).trace =
        [Event.changeCredentials "/configs/Caddyfile" "admin" "s3cret" none,
          Event.restartService "caddy" (some "exit status 1"), Event.writeHeader 500,
          Event.writeBody "exit status 1\n"] :=
  restart_failure_keeps_mutation Mutating.changeUsernameAndPassword staleEnv credentialsRequest
    [("/configs/Caddyfile", "basicauth / admin admin")]
    { fs := [("/configs/Caddyfile", "basicauth / admin admin")],
      trace := [Event.changeCredentials "/configs/Caddyfile" "admin" "s3cret" none] }
    "exit status 1" (by decide) (by rfl) (by rfl)

/-- C7: a POST to `/external-iglu` with `vendor_prefix`, `uri`, `name` and
`priority` whose priority `strconv.Atoi` rejects is answered with 400; the
file system is unchanged and nothing is called: not the editor, not the
reachability probe, not `restartService`. -/
theorem non_integer_priority_rejected (env : Env) (req : Request) (fs : FS)
    (vendorArr uriArr nameArr priorityArr : String × List String)
    (hm : req.method = "POST")
    (hvendor : lookupKey "vendor_prefix" req.form = some vendorArr)
    (huri : lookupKey "uri" req.form = some uriArr)
    (hname : lookupKey "name" req.form = some nameArr)
    (hpriority : lookupKey "priority" req.form = some priorityArr)
    (hint : atoi priorityArr.1 = none) :
    (addExternalIgluServer env req fs).status = some 400 ∧
      (addExternalIgluServer env req fs).fs = fs ∧
      (addExternalIgluServer env req fs).trace =
        [Event.writeHeader 400, Event.writeBody "Priority must be an integer\n"] := by
  simp [addExternalIgluServer, addExternalIgluServerMutate, hm, hvendor, huri, hname, hpriority,
    hint, httpError, World.log, World.init, World.status, statusOf]

/-- Witness of C7: priority `abc`. -/
theorem non_integer_priority_rejected_witness :
    (addExternalIgluServer calmEnv priorityRequest
        [("/configs/iglu-resolver.json", "[]")]).status = some 400 ∧
      (addExternalIgluServer calmEnv priorityRequest
        [("/configs/iglu-resolver.json", "[]")]).fs = [("/configs/iglu-resolver.json", "[]")] ∧
      (addExternalIgluServer calmEnv priorityRequest
        [("/configs/iglu-resolver.json", "[]")]).trace =
        [Event.writeHeader 400, Event.writeBody "Priority must be an integer\n"] :=
  non_integer_priority_rejected calmEnv priorityRequest [("/configs/iglu-resolver.json", "[]")]
    ("com.acme", []) ("http://iglu.acme.com", []) ("Acme", []) ("abc", [])
    (by decide) (by decide) (by decide) (by decide) (by decide) (by decide)

/-- C8: a POST to `/domain-name` whose `domain_name` `checkHostDomainName`
rejects is answered with 405; the file system is unchanged and the only call
made is the one to `checkHostDomainName`: `changeDomainName` and
`restartService` are not called. -/
theorem invalid_domain_rejected (env : Env) (req : Request) (fs : FS)
    (domainNameArr : String × List String) (err : String)
    (hm : req.method = "POST")
    (hdomain : lookupKey "domain_name" req.form = some domainNameArr)
    (hcheck : env.checkHostDomainName domainNameArr.1 = some err) :
    (addDomainName env req fs).status = some 405 ∧
      (addDomainName env req fs).fs = fs ∧
      (addDomainName env req fs).trace =
        [Event.checkHostDomainName domainNameArr.1 (some err), Event.writeHeader 405,
          Event.writeBody (err ++ "\n")] := by
  simp [addDomainName, addDomainNameMutate, hm, hdomain, hcheck, httpError,
    World.log, World.init, World.status, statusOf]

/-- Witness of C8: `bad domain`. -/
theorem invalid_domain_rejected_witness :
    (addDomainName calmEnv badDomainRequest [("/configs/Caddyfile", "example.com")]).status =
        some 405 ∧
      (addDomainName calmEnv badDomainRequest [("/configs/Caddyfile", "example.com")]).fs =
        [("/configs/Caddyfile", "example.com")] ∧
      (addDomainName calmEnv badDomainRequest [("/configs/Caddyfile", "example.com")]).trace =
        [Event.checkHostDomainName "bad domain" (some "invalid domain name"),
          Event.writeHeader 405, Event.writeBody "invalid domain name\n"] :=
  invalid_domain_rejected calmEnv badDomainRequest [("/configs/Caddyfile", "example.com")]
    ("bad domain", []) "invalid domain name" (by decide) (by decide) (by decide)

/-- C9 as stated fails: `addDomainName` answers an error of
`changeDomainName` with 405, not 500. -/
theorem domain_rewrite_failure_is_405 :
    (addDomainName brokenProxyEnv domainRequest [("/configs/Caddyfile", "")]).trace =
        [Event.checkHostDomainName "example.com" none,
          Event.changeDomainName "/configs/Caddyfile" "example.com"
            (some "domain directive not found"),
          Event.writeHeader 405, Event.writeBody "domain directive not found\n"] ∧
      (addDomainName brokenProxyEnv domainRequest [("/configs/Caddyfile", "")]).status =
        some 405 ∧
      (addDomainName brokenProxyEnv domainRequest [("/configs/Caddyfile", "")]).status ≠
        some 500 := by
  decide

/-- C9 amended: when `os.OpenFile` or an editor has returned an error, the
handler answers 500, except `addDomainName`, which answers an error of
`changeDomainName` with 405. -/
theorem mutation_failure_status (m : Mutating) (env : Env) (req : Request) (fs : FS)
    (e : Event) (he : e ∈ (m.run env req fs).trace) (hfail : e.mutationFailed = true) :
    (m.run env req fs).status = some (failureStatus m) := by
  rw [run_eq] at he ⊢
  by_cases hm : req.method = "POST"
  · rw [if_pos hm] at he ⊢
    cases hmut : m.mutate env req (World.init fs) with
    | error w' =>
      rw [hmut] at he
      obtain ⟨code, hcode, -, -, hfailed⟩ := mutate_error_trace m env req fs w' hmut
      simp only [hcode]
      rw [hfailed ⟨e, he, hfail⟩]
    | ok w1 =>
      rw [hmut] at he
      dsimp only at he
      exfalso
      have hclean := (mutate_ok_trace m env req fs w1 hmut).1
      cases hr : env.restartService (owningService m) w1.fs with
      | none =>
        rw [restartAndReply_ok env _ _ w1 hr] at he
        simp only [List.mem_append, List.mem_cons, List.mem_singleton, List.not_mem_nil,
          or_false] at he
        rcases he with he | he | he | he
        · have := (hclean e he).2.2
          simp [this] at hfail
        all_goals (subst he; simp [Event.mutationFailed] at hfail)
      | some err =>
        rw [restartAndReply_failed env _ _ err w1 hr] at he
        simp only [List.mem_append, List.mem_cons, List.mem_singleton, List.not_mem_nil,
          or_false] at he
        rcases he with he | he | he | he
        · have := (hclean e he).2.2
          simp [this] at hfail
        all_goals (subst he; simp [Event.mutationFailed] at hfail)
  · rw [if_neg hm] at he
    simp [httpError, World.log, World.init] at he
    rcases he with he | he <;> subst he <;> simp [Event.mutationFailed] at hfail

/-- Witness of C9 amended: `changeCredentials` fails, the answer is 500. -/
theorem mutation_failure_status_witness :
    (Mutating.changeUsernameAndPassword.run brokenProxyEnv credentialsRequest []).status =
      some 500 :=
  mutation_failure_status Mutating.changeUsernameAndPassword brokenProxyEnv credentialsRequest []
    (Event.changeCredentials "/configs/Caddyfile" "admin" "s3cret"
      (some "basicauth directive not found"))
    (by decide) (by decide)

/-- C10: each of the eight handlers answers a request whose method is not its
own with 404 and does nothing else: the file system is unchanged and the
trace holds the response only, so no file is read or written, no validator
or reachability probe is run and no service is restarted. -/
theorem wrong_method_is_404 (h : Handler) (env : Env) (req : Request) (fs : FS)
    (hm : req.method ≠ h.method) :
    (h.run env req fs).status = some 404 ∧ (h.run env req fs).fs = fs ∧
      (h.run env req fs).trace = [Event.writeHeader 404, Event.writeBody "\n"] := by
  cases h with
  | restartServices =>
    simp only [Handler.method] at hm
    simp [Handler.run, restartServices, hm, httpError, World.log, World.init, World.status,
      statusOf]
  | getSpminiVersion =>
    simp only [Handler.method] at hm
    simp [Handler.run, getSpminiVersion, hm, httpError, World.log, World.init, World.status,
      statusOf]
  | mutating m =>
    simp only [Handler.method] at hm
    cases m <;>
    simp [Handler.run, Mutating.run, uploadEnrichments, uploadIgluConfig, addExternalIgluServer,
      addLocalIgluApikey, changeUsernameAndPassword, addDomainName, hm, httpError, World.log,
      World.init, World.status, statusOf]

/-- Witness of C10: a `GET` to `/domain-name`. -/
theorem wrong_method_is_404_witness :
    ((Handler.mutating Mutating.addDomainName).run calmEnv getRequest
        [("/configs/Caddyfile", "example.com")]).status = some 404 ∧
      ((Handler.mutating Mutating.addDomainName).run calmEnv getRequest
        [("/configs/Caddyfile", "example.com")]).fs = [("/configs/Caddyfile", "example.com")] ∧
      ((Handler.mutating Mutating.addDomainName).run calmEnv getRequest
        [("/configs/Caddyfile", "example.com")]).trace =
        [Event.writeHeader 404, Event.writeBody "\n"] :=
  wrong_method_is_404 (Handler.mutating Mutating.addDomainName) calmEnv getRequest
    [("/configs/Caddyfile", "example.com")] (by decide)

end ControlPlane
